import Mathlib

/-!
Verification of the Gullie email-orchestrator core (Python sources:
`decision_engine.py`, `state_manager.py`, `orchestrator.py`, `send_email.py`,
`email_parser.py`, `email_templates.py`, `run_orchestrator.py`, `server.py`)
against its natural-language specification.

The Python dictionaries are embedded as insertion-ordered association lists,
mirroring CPython dict semantics (`get`, `update`, insertion order).  Machine
collaborators that the code calls out to (Gmail thread fetches, the LLM
classifier/extractor, the transport send) are modelled as an explicit
environment record of pure functions; everything that is the repository's own
logic is translated statement by statement from the source.
-/

namespace Gullie

/-- A value stored in a milestone data mapping: the Python code stores either
strings (addresses, dates) or booleans (the yes/no flags). -/
inductive Val
| s (v : String)
| b (v : Bool)
deriving DecidableEq, Repr

section AList

variable {κ α : Type} [DecidableEq κ]

/-- First pair with the given key, scanning left to right (CPython dict lookup
on an insertion-ordered backing list). -/
def afind (k : κ) : List (κ × α) → Option (κ × α)
| [] => none
| p :: l => if p.1 = k then some p else afind k l

/-- `d.get(k)` at the association-list level: the value bound to `k`, if any. -/
def alookup (k : κ) (l : List (κ × α)) : Option α :=
  (afind k l).map Prod.snd

/-- Replace the value at every pair whose key is `k` by `f` of it, keeping
positions (CPython `d[k] = f(d[k])` for a present key). -/
def amodify (k : κ) (f : α → α) (l : List (κ × α)) : List (κ × α) :=
  l.map (fun p => if p.1 = k then (p.1, f p.2) else p)

/-- CPython `d.update(u)`: keys already in `d` keep their position and take
`u`'s value; keys new to `d` are appended in `u`'s order. -/
def dictUpdate (d u : List (κ × α)) : List (κ × α) :=
  d.map (fun p =>
    match alookup p.1 u with
    | some v => (p.1, v)
    | none => p)
  ++ u.filter (fun q => (alookup q.1 d).isNone)

theorem afind_key {k : κ} {l : List (κ × α)} {p : κ × α}
    (h : afind k l = some p) : p.1 = k := by
  induction l with
  | nil => simp [afind] at h
  | cons q l ih =>
    by_cases hq : q.1 = k
    · simp [afind, hq] at h; simp [← h, hq]
    · simp [afind, hq] at h; exact ih h

theorem afind_append (k : κ) (l₁ l₂ : List (κ × α)) :
    afind k (l₁ ++ l₂) =
      match afind k l₁ with
      | some p => some p
      | none => afind k l₂ := by
  induction l₁ with
  | nil => simp [afind]
  | cons q l ih =>
    by_cases hq : q.1 = k
    · simp [afind, hq]
    · simp [afind, hq, ih]

theorem afind_map_keyfix (k : κ) (f : κ × α → κ × α)
    (hf : ∀ p, (f p).1 = p.1) (l : List (κ × α)) :
    afind k (l.map f) = (afind k l).map f := by
  induction l with
  | nil => simp [afind]
  | cons q l ih =>
    by_cases hq : q.1 = k
    · simp [afind, hf, hq]
    · simp [afind, hf, hq, ih]

theorem alookup_amodify_self (k : κ) (f : α → α) (l : List (κ × α)) :
    alookup k (amodify k f l) = (alookup k l).map f := by
  unfold alookup amodify
  rw [afind_map_keyfix k _ (by intro p; by_cases h : p.1 = k <;> simp [h])]
  cases h : afind k l with
  | none => simp
  | some p => simp [afind_key h]

theorem alookup_amodify_ne {k' k : κ} (h : k' ≠ k) (f : α → α)
    (l : List (κ × α)) : alookup k' (amodify k f l) = alookup k' l := by
  unfold alookup amodify
  rw [afind_map_keyfix k' _ (by intro p; by_cases hp : p.1 = k <;> simp [hp])]
  cases hfind : afind k' l with
  | none => simp
  | some p =>
    have hp := afind_key hfind
    simp [hp, h]

theorem alookup_append (k : κ) (l₁ l₂ : List (κ × α)) :
    alookup k (l₁ ++ l₂) =
      match alookup k l₁ with
      | some v => some v
      | none => alookup k l₂ := by
  unfold alookup
  rw [afind_append]
  cases afind k l₁ <;> simp

theorem alookup_append_left {k : κ} {l₁ : List (κ × α)} {v : α}
    (h : alookup k l₁ = some v) (l₂ : List (κ × α)) :
    alookup k (l₁ ++ l₂) = some v := by
  rw [alookup_append]
  simp [h]

theorem alookup_filter_of_holds (k : κ) (q : κ × α → Bool)
    (l : List (κ × α)) (hq : ∀ p ∈ l, p.1 = k → q p = true) :
    alookup k (l.filter q) = alookup k l := by
  induction l with
  | nil => simp [alookup, afind]
  | cons p l ih =>
    by_cases hp : p.1 = k
    · have := hq p (by simp) hp
      simp [alookup, afind, List.filter, this, hp]
    · have ih' := ih (fun r hr => hq r (by simp [hr]))
      cases hf : q p
      · simpa [alookup, afind, List.filter, hf, hp] using ih'
      · simpa [alookup, afind, List.filter, hf, hp] using ih'

theorem alookup_eq_none_iff (k : κ) (l : List (κ × α)) :
    alookup k l = none ↔ ∀ p ∈ l, p.1 ≠ k := by
  induction l with
  | nil => simp [alookup, afind]
  | cons q l ih =>
    by_cases hq : q.1 = k
    · simp [alookup, afind, hq]
    · simp [alookup, afind, hq] at ih ⊢
      exact ih

theorem alookup_def (k : κ) (l : List (κ × α)) :
    alookup k l = (afind k l).map Prod.snd := rfl

theorem updMap_keyfix (u : List (κ × α)) (p : κ × α) :
    ((fun q : κ × α =>
      match alookup q.1 u with
      | some v => (q.1, v)
      | none => q) p).1 = p.1 := by
  show (match alookup p.1 u with
        | some v => (p.1, v)
        | none => p).1 = p.1
  cases alookup p.1 u <;> rfl

/-- The value part of `dictUpdate`'s map stage, at a key bound in `d`. -/
theorem alookup_updMap (k : κ) (d u : List (κ × α)) :
    alookup k (d.map (fun q =>
      match alookup q.1 u with
      | some v => (q.1, v)
      | none => q)) =
      match afind k d with
      | some p =>
          some (match alookup k u with
                | some v => v
                | none => p.2)
      | none => none := by
  rw [alookup_def, afind_map_keyfix k _ (updMap_keyfix u)]
  cases hf : afind k d with
  | none => rfl
  | some p =>
    obtain ⟨k₁, v₁⟩ := p
    have hp : k₁ = k := afind_key hf
    subst hp
    cases h2 : alookup k₁ u <;> simp [h2]

/-- If `u` binds no pair at key `k`, `dictUpdate d u` looks up `k` as `d` does. -/
theorem alookup_dictUpdate_of_not_mem_u (k : κ) {d u : List (κ × α)}
    (h : alookup k u = none) : alookup k (dictUpdate d u) = alookup k d := by
  unfold dictUpdate
  rw [alookup_append, alookup_updMap, h]
  cases hf : afind k d with
  | some p =>
    simp only []
    rw [alookup_def, hf]
    rfl
  | none =>
    simp only []
    have heq : alookup k (u.filter fun q => (alookup q.1 d).isNone) =
        alookup k u := by
      apply alookup_filter_of_holds
      intro p _ hp
      rw [hp, alookup_def, hf]
      rfl
    rw [heq, h, alookup_def, hf]
    rfl

/-- If `k` is bound in `d`, `dictUpdate d u` at `k` is `u`'s value when `u`
binds `k`, else `d`'s value. -/
theorem alookup_dictUpdate_of_mem_d {k : κ} {d : List (κ × α)} {v : α}
    (u : List (κ × α)) (h : alookup k d = some v) :
    alookup k (dictUpdate d u) =
      match alookup k u with
      | some w => some w
      | none => some v := by
  unfold dictUpdate
  rw [alookup_append, alookup_updMap]
  rw [alookup_def] at h
  cases hf : afind k d with
  | none => rw [hf] at h; simp at h
  | some p =>
    rw [hf] at h
    simp at h
    rw [← h]
    cases alookup k u <;> rfl

/-- If `k` is not bound in `d`, `dictUpdate d u` at `k` looks up `u`. -/
theorem alookup_dictUpdate_of_not_mem_d {k : κ} {d : List (κ × α)}
    (u : List (κ × α)) (h : alookup k d = none) :
    alookup k (dictUpdate d u) = alookup k u := by
  unfold dictUpdate
  rw [alookup_append, alookup_updMap]
  rw [alookup_def] at h
  cases hf : afind k d with
  | some p => rw [hf] at h; simp at h
  | none =>
    simp only []
    have heq : alookup k (u.filter fun q => (alookup q.1 d).isNone) =
        alookup k u := by
      apply alookup_filter_of_holds
      intro p _ hp
      rw [hp, alookup_def, hf]
      rfl
    rw [heq]

end AList

/-! ## Data model (`state_manager.py`)

A case is one JSON object per employee.  `milestones` models the dynamic
`milestone_N` keys of the Python dict (key `N` for `"milestone_N"`); the
`created_at`/`last_updated` timestamp strings carry no workflow logic and are
not modelled.  `employee_thread_id`/`vendor_thread_id` are `none` when the
corresponding dict key is absent (the code reads them only via `.get`, except
one `case["employee_thread_id"]` access modelled as a KeyError below). -/

/-- One milestone entry of a case (`state_manager.py` milestone dicts). -/
structure MilestoneState where
  status : String
  data : List (String × Option Val)
  pending_actions : List String
deriving DecidableEq, Repr

/-- A milestone data mapping: Python dict from field name to value-or-`None`. -/
abbrev DataMap := List (String × Option Val)

/-- One employee case (`state_manager.py::create_case` shape). -/
structure Case where
  employee_email : String
  current_milestone : Nat
  milestones : List (Nat × MilestoneState)
  employee_thread_id : Option String
  vendor_thread_id : Option String
deriving DecidableEq, Repr

/-- The `"cases"` mapping of the persisted state file. -/
abbrev Store := List (String × Case)

/-- Python exception kinds that the orchestrator's `try/except` blocks catch. -/
inductive PyErr
| attributeError
| keyError
| valueError
deriving DecidableEq, Repr

/-- `state_manager.py::create_case` initial milestone-1 entry. -/
def initialMilestone1 : MilestoneState :=
  { status := "in_progress"
  , data :=
      [ ("pickup_address", none)
      , ("delivery_address", none)
      , ("needs_box", none)
      , ("needs_packing_help", none)
      , ("insurance_opted_in", none) ]
  , pending_actions := ["waiting_for_addresses"] }

/-- The fresh case dict built by `create_case`. -/
def newCase (employee_email : String) : Case :=
  { employee_email := employee_email
  , current_milestone := 1
  , milestones := [(1, initialMilestone1)]
  , employee_thread_id := none
  , vendor_thread_id := none }

/-- `state_manager.py::get_case`. -/
def get_case (s : Store) (employee_email : String) : Option Case :=
  alookup employee_email s

/-- `state_manager.py::create_case`: returns the existing case unchanged, or
appends a fresh one (CPython dict insertion appends). -/
def create_case (s : Store) (employee_email : String) : Store × Case :=
  match alookup employee_email s with
  | some c => (s, c)
  | none => (s ++ [(employee_email, newCase employee_email)], newCase employee_email)

/-- The blank milestone dict that `update_milestone_data` and
`update_pending_actions` insert when `milestone_N` is absent. -/
def blankMilestone : MilestoneState :=
  { status := "in_progress", data := [], pending_actions := [] }

/-- The `if milestone_key not in case: case[milestone_key] = {...}` step of
`update_milestone_data` and `update_pending_actions`. -/
def ensureMilestone (milestone : Nat) (l : List (Nat × MilestoneState)) :
    List (Nat × MilestoneState) :=
  if (alookup milestone l).isSome then l else l ++ [(milestone, blankMilestone)]

/-- `state_manager.py::update_milestone_data`: raises `ValueError` when the
case is absent; otherwise inserts a blank `milestone_N` entry if needed and
merges `data` into its data dict with CPython `dict.update` semantics. -/
def update_milestone_data (s : Store) (employee_email : String) (milestone : Nat)
    (data : DataMap) : Except PyErr Store :=
  match alookup employee_email s with
  | none => .error .valueError
  | some _ =>
    .ok (amodify employee_email (fun c =>
      let merged :=
        amodify milestone (fun ms => { ms with data := dictUpdate ms.data data })
          (ensureMilestone milestone c.milestones)
      { c with milestones := merged }) s)

/-- `state_manager.py::advance_milestone`: raises `ValueError` when the case is
absent; otherwise marks the current milestone (if its entry exists) as
`"completed"` and increments `current_milestone`. -/
def advance_milestone (s : Store) (employee_email : String) : Except PyErr Store :=
  match alookup employee_email s with
  | none => .error .valueError
  | some _ =>
    .ok (amodify employee_email (fun c =>
      let marked :=
        amodify c.current_milestone (fun ms => { ms with status := "completed" })
          c.milestones
      { c with milestones := marked, current_milestone := c.current_milestone + 1 }) s)

/-- `state_manager.py::update_pending_actions`. -/
def update_pending_actions (s : Store) (employee_email : String) (milestone : Nat)
    (acts : List String) : Except PyErr Store :=
  match alookup employee_email s with
  | none => .error .valueError
  | some _ =>
    .ok (amodify employee_email (fun c =>
      let withActs :=
        amodify milestone (fun ms => { ms with pending_actions := acts })
          (ensureMilestone milestone c.milestones)
      { c with milestones := withActs }) s)

/-- `state.get("milestone_m", {}).get("data", {})`: the milestone's data dict,
empty when the milestone entry is absent. -/
def milestoneData (c : Case) (m : Nat) : DataMap :=
  match alookup m c.milestones with
  | some ms => ms.data
  | none => []

/-- `data.get(field)`: `none` both when the key is absent and when it is
present with Python `None`. -/
def dget (d : DataMap) (field : String) : Option Val :=
  (alookup field d).join

/-- `state_manager.py::is_milestone_complete` (the store-level re-check used by
`execute_action`): the five explicit `is not None` conjuncts of the source. -/
def is_milestone_complete (s : Store) (employee_email : String) (milestone : Nat) :
    Bool :=
  match alookup employee_email s with
  | none => false
  | some c =>
    if milestone = 1 then
      let d := milestoneData c 1
      (dget d "pickup_address").isSome &&
      (dget d "delivery_address").isSome &&
      (dget d "needs_box").isSome &&
      (dget d "needs_packing_help").isSome &&
      (dget d "insurance_opted_in").isSome
    else false

/-! ## Decision engine (`decision_engine.py`)

`get_next_action(state, parsed_email)` never reads `parsed_email`, so the
embedding takes only the case. -/

/-- The actions built by `decision_engine.py` (the `"type"` tag plus the
fields the orchestrator consumes; `recipient` is the dict's `"to"` entry,
renamed because `to` is reserved in Lean). -/
inductive Action
| send_initial_request (recipient : String) (milestone : Nat)
| send_completion_confirmation (recipient : String) (milestone : Nat)
| send_followup (recipient : String) (milestone : Nat) (missing_fields : List String)
| send_clarification (recipient : String) (field : String)
deriving DecidableEq, Repr

/-- The `required_fields` list written out in
`check_milestone1_completion` and `determine_missing_fields` (note: the source
lists five fields; `pickup_date` is not among them). -/
def required_fields : List String :=
  [ "pickup_address"
  , "delivery_address"
  , "needs_box"
  , "needs_packing_help"
  , "insurance_opted_in" ]

/-- `decision_engine.py::check_milestone1_completion`. -/
def check_milestone1_completion (c : Case) : Bool :=
  (required_fields.all fun f => (dget (milestoneData c 1) f).isSome)

/-- `decision_engine.py::determine_missing_fields` (the accumulation loop is a
filter over `required_fields` in order). -/
def determine_missing_fields (c : Case) : List String :=
  required_fields.filter fun f => (dget (milestoneData c 1) f).isNone

/-- `decision_engine.py::_get_milestone1_action`. -/
def _get_milestone1_action (c : Case) : Option Action :=
  let data := milestoneData c 1
  if data.all (fun p => p.2.isNone) then
    some (.send_initial_request c.employee_email 1)
  else if check_milestone1_completion c then
    some (.send_completion_confirmation c.employee_email 1)
  else
    let missing := determine_missing_fields c
    if missing.isEmpty then none
    else some (.send_followup c.employee_email 1 missing)

/-- `decision_engine.py::get_next_action` (milestones past 1 yield `None`). -/
def get_next_action (c : Case) : Option Action :=
  if c.current_milestone = 1 then _get_milestone1_action c
  else none

/-! ## Email templates (`email_templates.py`)

Apostrophes in the source's body texts are written `\x27` below; the texts are
otherwise verbatim (including the duplicated `2.` numbering of the initial
request). -/

/-- `email_templates.py::get_milestone1_initial_request`. -/
def get_milestone1_initial_request : String × String :=
  ( "Moving Service Request - Information Needed"
  , "Hello!\n\nI\x27m Gullie, your moving service assistant. To help you with your move, I need to collect some information:\n\n1. **Pickup Address**: Where should we pick up your belongings?\n2. **Pickup Date**: When should we pick up your belongings?\n2. **Delivery Address**: Where should we deliver your belongings?\n3. **Boxes**: Do you need moving boxes?\n4. **Packing Help**: Do you need help with packing?\n5. **Insurance**: Would you like to opt-in for moving insurance?\n\nPlease reply to this email with all the information above. You can provide it in any format that\x27s convenient for you.\n\nThank you!\nGullie" )

/-- The `field_descriptions` dict of `get_milestone1_followup`. -/
def field_descriptions : List (String × String) :=
  [ ("pickup_address", "pickup address")
  , ("pickup_date", "pickup date")
  , ("delivery_address", "delivery address")
  , ("needs_box", "whether you need boxes")
  , ("needs_packing_help", "whether you need help with packing")
  , ("insurance_opted_in", "whether you want to opt-in for insurance") ]

/-- The `items_text` join of `get_milestone1_followup` (1 item plain, 2 items
joined by `and`, 3+ items comma-joined with a final `, and`).  The list the
callers pass is never empty; the empty case would raise `IndexError` in Python
and is mapped to the empty string here. -/
def items_text (missing_list : List String) : String :=
  match missing_list with
  | [] => ""
  | [a] => a
  | [a, b] => a ++ " and " ++ b
  | l => String.intercalate ", " l.dropLast ++ ", and " ++ l.getLastD ""

/-- `email_templates.py::get_milestone1_followup`. -/
def get_milestone1_followup (missing_fields : List String) : String × String :=
  let missing_list :=
    missing_fields.map fun f => (alookup f field_descriptions).getD f
  ( "Moving Service Request - Additional Information Needed"
  , "Hello!\n\nThank you for your response! I still need a bit more information to proceed:\n\nI\x27m missing: " ++ items_text missing_list ++ "\n\nPlease reply with this information and I\x27ll be able to move forward with your request.\n\nThank you!\nGullie" )

/-- `email_templates.py::get_milestone1_completion_confirmation`. -/
def get_milestone1_completion_confirmation : String × String :=
  ( "Moving Service Request - Information Received"
  , "Hello!\n\nPerfect! I\x27ve received all the information I need for your moving service request. \n\nI\x27ll now proceed to coordinate with our moving vendors to get you a quote. You\x27ll hear from me soon with the next steps.\n\nThank you for providing all the details!\nGullie" )

/-- The `field_questions` dict of `get_clarification_request`. -/
def field_questions : List (String × String) :=
  [ ("pickup_address", "your pickup address")
  , ("pickup_date", "your pickup date")
  , ("delivery_address", "your delivery address")
  , ("needs_box", "whether you need boxes (yes or no)")
  , ("needs_packing_help", "whether you need help with packing (yes or no)")
  , ("insurance_opted_in", "whether you want to opt-in for insurance (yes or no)") ]

/-- `email_templates.py::get_clarification_request`. -/
def get_clarification_request (unclear_field : String) : String × String :=
  let question := (alookup unclear_field field_questions).getD unclear_field
  ( "Moving Service Request - Need Clarification"
  , "Hello!\n\nI received your message, but I need a bit of clarification:\n\nCould you please provide " ++ question ++ "?\n\nA simple yes/no or the specific information would be great!\n\nThank you!\nGullie" )

/-! ## Inbound events, collaborators, staleness (`send_email.py`) -/

/-- An inbound email as returned by `send_email.py::fetch_email_by_id`
(`internalDate` as a number, mirroring the `int(...)` conversions applied to
it; `none` models an absent/empty value). -/
structure Email where
  id : String
  fromField : String
  subject : String
  body : String
  snippet : String
  threadId : Option String
  internalDate : Option Nat
deriving DecidableEq, Repr

/-- A raw Gmail thread message as consumed by `is_latest_in_thread` (only its
`internalDate` is read, with default `0`). -/
structure ThreadMsg where
  internalDate : Option Nat
deriving DecidableEq, Repr

/-- The message object a successful transport send returns (only its
`threadId` entry is read by `send_next_email`). -/
structure SentResult where
  threadId : Option String
deriving DecidableEq, Repr

/-- An outbound delivery that actually reached the transport: recipient and
subject. -/
abbrev Sent := String × String

/-- The external collaborators of the core, as pure functions:
Gmail reads (`threadMessages`), the regex sender resolution of
`email_parser.py::extract_email_address` (`extract_email_address`), the LLM
calls of `email_parser.py` (`classifyRaw` is the raw classifier reply,
`none` for a raised exception; `get_context` the thread summary;
`extract_milestone1_data` the extractor result keyed by field), the transport
send (`send` returns `none` when `send_message` fails), and the relevance
filter used by `server.py` (`isRelevant`). -/
structure Env where
  threadMessages : String → List ThreadMsg
  extract_email_address : String → Option String
  classifyRaw : String → Option String
  get_context : String → String
  extract_milestone1_data : String → String → DataMap
  send : String → String → String → Option SentResult
  isRelevant : String → Bool

/-- Does the second character list start with the first? -/
def prefixMatch : List Char → List Char → Bool
| [], _ => true
| _ :: _, [] => false
| a :: as, b :: bs => a == b && prefixMatch as bs

/-- Does the list contain the pattern as a contiguous sublist? -/
def subMatch (pat : List Char) : List Char → Bool
| [] => pat.isEmpty
| b :: bs => prefixMatch pat (b :: bs) || subMatch pat bs

/-- `'pat' in s` for Python strings: contiguous-substring containment. -/
def strContains (s pat : String) : Bool :=
  subMatch pat.data s.data

/-- Largest `internalDate` over a thread's messages, default `0`
(`max((msg.get('internalDate', 0) ...), default=0)`). -/
def maxInternalDate (msgs : List ThreadMsg) : Nat :=
  msgs.foldl (fun acc m => max acc (m.internalDate.getD 0)) 0

/-- `send_email.py::is_latest_in_thread`. -/
def is_latest_in_thread (env : Env) (email : Email) : Bool :=
  match email.threadId with
  | none => true
  | some thread_id =>
    match email.internalDate with
    | none => true
    | some current_internal_date =>
      let thread_messages := env.threadMessages thread_id
      if thread_messages.isEmpty then true
      else decide (maxInternalDate thread_messages ≤ current_internal_date)

/-- `email_parser.py::extract_intent`: maps the raw classifier reply through
the substring checks, `'unknown'` when the collaborator raises. -/
def extract_intent (env : Env) (text : String) : String :=
  match env.classifyRaw text with
  | none => "unknown"
  | some result_text =>
    if strContains result_text "answer" then "answer"
    else if strContains result_text "question" then "question"
    else if strContains result_text "greeting" then "greeting"
    else "unrelated"

/-! ## Orchestrator (`orchestrator.py`)

`StateManager` defines no `update_thread_id` method, although
`process_incoming_email` and `send_next_email` call one: every such call
raises `AttributeError` at runtime, which the enclosing `try/except` blocks
turn into a `False` return.  The embedding models those call sites as the
`AttributeError` they raise. -/

/-- `email_parser.py::parse_email` output (the fields the orchestrator reads). -/
structure ParsedEmail where
  id : String
  fromField : String
  subject : String
  body : String
  snippet : String
deriving DecidableEq, Repr

/-- `email_parser.py::parse_email`. -/
def parse_email (email : Email) : ParsedEmail :=
  { id := email.id
  , fromField := email.fromField
  , subject := email.subject
  , body := email.body
  , snippet := email.snippet }

/-- `orchestrator.py::send_next_email`.  The store is read, never written: the
branch that would record a fresh thread id calls the missing
`StateManager.update_thread_id` and the resulting `AttributeError` is caught
by this method's own `except`, which returns `False` — after the transport
send already happened, so the delivery is still logged in the result. -/
def send_next_email (env : Env) (s : Store) (employee_email subject body
    thread_type : String) : Bool × List Sent :=
  let thread_id : Option String :=
    match get_case s employee_email with
    | some c =>
      if thread_type = "employee" then c.employee_thread_id
      else if thread_type = "vendor" then c.vendor_thread_id
      else none
    | none => none
  match env.send employee_email subject body with
  | none => (false, [])
  | some result =>
    let sent : List Sent := [(employee_email, subject)]
    match result.threadId with
    | some new_thread_id =>
      if thread_id.isNone then (false, sent)
      else if thread_id ≠ some new_thread_id then (false, sent)
      else (true, sent)
    | none => (true, sent)

/-- `orchestrator.py::execute_action` (its `try/except` turns the
`ValueError` a failing `advance_milestone` would raise into `False`). -/
def execute_action (env : Env) (action : Action) (c : Case) (s : Store) :
    Bool × Store × List Sent :=
  let employee_email := c.employee_email
  match action with
  | .send_initial_request _ _ =>
    let t := get_milestone1_initial_request
    let r := send_next_email env s employee_email t.1 t.2 "employee"
    (r.1, s, r.2)
  | .send_followup _ _ missing_fields =>
    let t := get_milestone1_followup missing_fields
    let r := send_next_email env s employee_email t.1 t.2 "employee"
    (r.1, s, r.2)
  | .send_completion_confirmation _ _ =>
    let t := get_milestone1_completion_confirmation
    let r := send_next_email env s employee_email t.1 t.2 "employee"
    if r.1 then
      if is_milestone_complete s employee_email 1 then
        match advance_milestone s employee_email with
        | .ok s2 => (true, s2, r.2)
        | .error _ => (false, s, r.2)
      else (true, s, r.2)
    else (false, s, r.2)
  | .send_clarification _ field =>
    let t := get_clarification_request field
    let r := send_next_email env s employee_email t.1 t.2 "employee"
    (r.1, s, r.2)

/-- Lines 99–103 of `orchestrator.py::handle_milestone1`: keep only the
non-`None` extracted values (`{k: v for k, v in extracted_data.items() if v is
not None}`) and, when any remain, merge them via `update_milestone_data`. -/
def merge_extracted_updates (s : Store) (employee_email : String)
    (extracted_data : DataMap) : Except PyErr Store :=
  let updates := extracted_data.filter fun p => p.2.isSome
  if updates.isEmpty then .ok s
  else update_milestone_data s employee_email 1 updates

/-- `orchestrator.py::handle_milestone1`.  On `"answer"` intent the code reads
`case["employee_thread_id"]` by subscript — a `KeyError` when no thread id was
ever recorded — then merges only the non-`None` extracted values. -/
def handle_milestone1 (env : Env) (parsed : ParsedEmail) (c : Case) (intent : String)
    (s : Store) : Except PyErr Bool × Store × List Sent :=
  let employee_email := c.employee_email
  if intent = "answer" then
    match c.employee_thread_id with
    | none => (.error .keyError, s, [])
    | some thread_id =>
      let context := env.get_context thread_id
      let extracted_data := env.extract_milestone1_data parsed.body context
      match merge_extracted_updates s employee_email extracted_data with
      | .error e => (.error e, s, [])
      | .ok s1 =>
        match get_case s1 employee_email with
        | none => (.error .attributeError, s1, [])
        | some c1 =>
          match get_next_action c1 with
          | some a =>
            let r := execute_action env a c1 s1
            (.ok r.1, r.2.1, r.2.2)
          | none => (.ok true, s1, [])
  else
    match get_next_action c with
    | some a =>
      let r := execute_action env a c s
      (.ok r.1, r.2.1, r.2.2)
    | none => (.ok true, s, [])

/-- `orchestrator.py::process_incoming_email` up to its `try` body: staleness
gate, sender resolution, load-or-create, thread link (the missing
`update_thread_id` raising `AttributeError` whenever it would be called),
intent classification, milestone dispatch. -/
def process_core (env : Env) (email : Email) (s : Store) :
    Except PyErr Bool × Store × List Sent :=
  if ¬ is_latest_in_thread env email then (.ok false, s, [])
  else
    let parsed := parse_email email
    match env.extract_email_address parsed.fromField with
    | none => (.ok false, s, [])
    | some sender_email =>
      let created := create_case s sender_email
      let s := created.1
      let c := created.2
      let link : Except PyErr Unit :=
        match email.threadId with
        | none => .ok ()
        | some thread_id =>
          match c.employee_thread_id with
          | none => .error .attributeError
          | some current_thread_id =>
            if current_thread_id ≠ thread_id then .error .attributeError
            else .ok ()
      match link with
      | .error e => (.error e, s, [])
      | .ok _ =>
        let intent := extract_intent env parsed.body
        if c.current_milestone = 1 then handle_milestone1 env parsed c intent s
        else (.ok false, s, [])

/-- `orchestrator.py::process_incoming_email`: the outer `except` catches any
exception from the `try` body and returns `False`, keeping whatever store
mutations already happened. -/
def process_incoming_email (env : Env) (email : Email) (s : Store) :
    Bool × Store × List Sent :=
  match process_core env email s with
  | (.ok b, s1, sent) => (b, s1, sent)
  | (.error _, s1, sent) => (false, s1, sent)

/-! ## Intake entry points (`run_orchestrator.py`, `server.py`) -/

/-- One iteration body of `run_orchestrator.py::poll_inbox`: skip an id
already in `processed_ids`, otherwise process and record the id only on a
successful pass. -/
def poll_step (env : Env) (latest : Option Email) (processed_ids : List String)
    (s : Store) : List String × Store × List Sent :=
  match latest with
  | none => (processed_ids, s, [])
  | some email =>
    if processed_ids.contains email.id then (processed_ids, s, [])
    else
      let r := process_incoming_email env email s
      (if r.1 then processed_ids ++ [email.id] else processed_ids, r.2.1, r.2.2)

/-- Per-email outcome of `server.py::process_email_endpoint`: the
`"skipped"`, `"success"` and `"partial"` status strings of the source (the
last one renamed: its Python name is reserved in Lean). -/
inductive EndpointStatus
| skipped
| success
| hadIssues
deriving DecidableEq, Repr

/-- The per-email body of `server.py::process_email_endpoint`: the relevance
filter, then `process_incoming_email` — with no consultation of the
`processed_email_ids` set on this push path. -/
def process_email_endpoint_single (env : Env) (email : Email) (s : Store) :
    EndpointStatus × Store × List Sent :=
  let email_text := email.subject ++ "\n\n" ++ email.body
  if env.isRelevant email_text then
    let r := process_incoming_email env email s
    (if r.1 then .success else .hadIssues, r.2.1, r.2.2)
  else (.skipped, s, [])

/-! ## Sequences of state-store operations (for the monotonicity invariant) -/

/-- One call to a mutating `StateManager` method. -/
inductive StoreOp
| create (employee_email : String)
| updateData (employee_email : String) (milestone : Nat) (data : DataMap)
| advance (employee_email : String)
| updatePending (employee_email : String) (milestone : Nat) (acts : List String)

/-- Apply one operation; a raised `ValueError` leaves the store unchanged
(the methods raise before any mutation). -/
def applyOp (s : Store) : StoreOp → Store
| .create e => (create_case s e).1
| .updateData e m d =>
  match update_milestone_data s e m d with
  | .ok s1 => s1
  | .error _ => s
| .advance e =>
  match advance_milestone s e with
  | .ok s1 => s1
  | .error _ => s
| .updatePending e m a =>
  match update_pending_actions s e m a with
  | .ok s1 => s1
  | .error _ => s

/-- Apply a sequence of operations in order. -/
def applyOps (s : Store) (ops : List StoreOp) : Store :=
  ops.foldl applyOp s

/-! ## Concrete fixtures used by witnesses and counterexamples -/

/-- A milestone-1 case with the given data mapping. -/
def caseWith (d : DataMap) : Case :=
  { employee_email := "emp@example.com"
  , current_milestone := 1
  , milestones := [(1, { status := "in_progress", data := d, pending_actions := [] })]
  , employee_thread_id := none
  , vendor_thread_id := none }

/-- All five required fields set; no `pickup_date` key at all. -/
def caseFiveSet : Case :=
  caseWith
    [ ("pickup_address", some (.s "123 Main St"))
    , ("delivery_address", some (.s "456 Oak Ave"))
    , ("needs_box", some (.b true))
    , ("needs_packing_help", some (.b false))
    , ("insurance_opted_in", some (.b true)) ]

/-- Scenario B data: only `pickup_address` and `delivery_address` set. -/
def caseOnlyAddresses : Case :=
  caseWith
    [ ("pickup_address", some (.s "123 Main St"))
    , ("delivery_address", some (.s "456 Oak Ave"))
    , ("needs_box", none)
    , ("needs_packing_help", none)
    , ("insurance_opted_in", none) ]

/-- Every required field unset, but a non-required `pickup_date` entry is set
(the shape `update_milestone_data` produces after an email answering only the
pickup date). -/
def caseDateOnly : Case :=
  caseWith
    [ ("pickup_address", none)
    , ("delivery_address", none)
    , ("needs_box", none)
    , ("needs_packing_help", none)
    , ("insurance_opted_in", none)
    , ("pickup_date", some (.s "2026-01-05")) ]

/-- A case whose milestone-1 entry exists with an empty data dict. -/
def caseEmptyData : Case := caseWith []

/-! ## C1 -/

theorem exists_unset_of_not_complete (c : Case)
    (h : check_milestone1_completion c = false) :
    ∃ f ∈ required_fields, dget (milestoneData c 1) f = none := by
  unfold check_milestone1_completion at h
  rw [← Bool.not_eq_true, List.all_eq_true] at h
  push_neg at h
  obtain ⟨f, hf, hval⟩ := h
  cases hd : dget (milestoneData c 1) f with
  | none => exact ⟨f, hf, hd⟩
  | some v => rw [hd] at hval; simp at hval

/-- C1 (counterexample): the source's milestone-1 completion check does not
require `pickup_date` — a case with exactly the five listed fields set and no
`pickup_date` at all passes the check; and with only the two addresses set,
the missing-fields list is the three flags, not the four fields the claim
names. -/
theorem C1_counterexample :
    check_milestone1_completion caseFiveSet = true ∧
    dget (milestoneData caseFiveSet 1) "pickup_date" = none ∧
    determine_missing_fields caseOnlyAddresses =
      ["needs_box", "needs_packing_help", "insurance_opted_in"] ∧
    determine_missing_fields caseOnlyAddresses ≠
      ["pickup_date", "needs_box", "needs_packing_help", "insurance_opted_in"] := by
  refine ⟨by decide, by decide, by decide, by decide⟩

/-- C1 (amended): for every milestone-1 case, the completion check returns
true iff each of the five required fields — pickup address, delivery address,
needs-box flag, needs-packing-help flag, insurance-opt-in flag (`pickup_date`
is not required) — holds a set value; and for a case with only
`pickup_address` and `delivery_address` set the missing-fields list is exactly
`[needs_box, needs_packing_help, insurance_opted_in]` in that order. -/
theorem C1_amended (c : Case) :
    (check_milestone1_completion c = true ↔
      ((dget (milestoneData c 1) "pickup_address").isSome = true ∧
       (dget (milestoneData c 1) "delivery_address").isSome = true ∧
       (dget (milestoneData c 1) "needs_box").isSome = true ∧
       (dget (milestoneData c 1) "needs_packing_help").isSome = true ∧
       (dget (milestoneData c 1) "insurance_opted_in").isSome = true)) ∧
    ((dget (milestoneData c 1) "pickup_address").isNone = false →
     (dget (milestoneData c 1) "delivery_address").isNone = false →
     (dget (milestoneData c 1) "needs_box").isNone = true →
     (dget (milestoneData c 1) "needs_packing_help").isNone = true →
     (dget (milestoneData c 1) "insurance_opted_in").isNone = true →
     determine_missing_fields c =
       ["needs_box", "needs_packing_help", "insurance_opted_in"]) := by
  constructor
  · simp [check_milestone1_completion, required_fields]
  · intro h1 h2 h3 h4 h5
    simp [determine_missing_fields, required_fields, List.filter, h1, h2, h3, h4, h5]

/-- C1 witness: the amended theorem applied to the Scenario B fixture. -/
theorem C1_witness :
    determine_missing_fields caseOnlyAddresses =
      ["needs_box", "needs_packing_help", "insurance_opted_in"] :=
  (C1_amended caseOnlyAddresses).2 (by decide) (by decide) (by decide)
    (by decide) (by decide)

/-! ## C2 -/

/-- C2 (counterexample): the initial-request branch tests that every *value in
the data dict* is `None`, not that every *required field* is unset — with all
five required fields unset but a non-required `pickup_date` entry set, the
engine returns a follow-up instead of the claimed initial request. -/
theorem C2_counterexample :
    (∀ f ∈ required_fields, dget (milestoneData caseDateOnly 1) f = none) ∧
    get_next_action caseDateOnly =
      some (.send_followup "emp@example.com" 1 required_fields) ∧
    get_next_action caseDateOnly ≠
      some (.send_initial_request "emp@example.com" 1) := by
  refine ⟨by decide, by decide, by decide⟩

/-- C2 (amended): for every case at milestone 1 the action is decided in
fixed priority order with exactly one outcome — if every value in the
milestone-1 data dict is unset, `SendInitialRequest`; otherwise if the
(five-field) completion check holds, `SendCompletionConfirmation`; otherwise
`SendFollowup` whose missing fields are exactly the currently-unset required
fields in registry order. -/
theorem C2_amended (c : Case) (h1 : c.current_milestone = 1) :
    ((milestoneData c 1).all (fun p => p.2.isNone) = true →
      get_next_action c = some (.send_initial_request c.employee_email 1)) ∧
    ((milestoneData c 1).all (fun p => p.2.isNone) = false →
     check_milestone1_completion c = true →
      get_next_action c = some (.send_completion_confirmation c.employee_email 1)) ∧
    ((milestoneData c 1).all (fun p => p.2.isNone) = false →
     check_milestone1_completion c = false →
      get_next_action c = some (.send_followup c.employee_email 1
        (required_fields.filter fun f => (dget (milestoneData c 1) f).isNone))) := by
  refine ⟨?_, ?_, ?_⟩
  · intro hall
    simp [get_next_action, _get_milestone1_action, h1, hall]
  · intro hall hcomp
    simp [get_next_action, _get_milestone1_action, h1, hall, hcomp]
  · intro hall hcomp
    simp [get_next_action, _get_milestone1_action, h1, hall, hcomp,
      determine_missing_fields]
    exact exists_unset_of_not_complete c hcomp

/-- C2 witness: the amended theorem applied to the Scenario B fixture (partial
data, follow-up branch). -/
theorem C2_witness :
    get_next_action caseOnlyAddresses =
      some (.send_followup "emp@example.com" 1
        ["needs_box", "needs_packing_help", "insurance_opted_in"]) := by
  have h := (C2_amended caseOnlyAddresses rfl).2.2 (by decide) (by decide)
  simpa using h

/-! ## C10 -/

/-- C10: a milestone-1 case whose data dict is empty (field keys absent
entirely) still yields `SendInitialRequest` — the all-unset check holds
vacuously — and the completion check returns false; no error occurs. -/
theorem C10_theorem (c : Case) (h1 : c.current_milestone = 1)
    (h2 : milestoneData c 1 = []) :
    get_next_action c = some (.send_initial_request c.employee_email 1) ∧
    check_milestone1_completion c = false := by
  constructor
  · simp [get_next_action, _get_milestone1_action, h1, h2]
  · unfold check_milestone1_completion
    rw [h2]
    decide

/-- C10 witness: the empty-data fixture. -/
theorem C10_witness :
    get_next_action caseEmptyData =
      some (.send_initial_request "emp@example.com" 1) ∧
    check_milestone1_completion caseEmptyData = false :=
  C10_theorem caseEmptyData rfl rfl

/-! ## C4 -/

/-- C4: the staleness admission rule of `is_latest_in_thread` — an event with
no thread association is always admitted; an empty thread lookup admits the
event; and an event of a thread with known messages and a delivery timestamp
is admitted iff its timestamp is at least the maximum timestamp among those
messages (ties admitted, older-than-max rejected). -/
theorem C4_theorem (env : Env) (email : Email) :
    (email.threadId = none → is_latest_in_thread env email = true) ∧
    (∀ tid, email.threadId = some tid → env.threadMessages tid = [] →
      is_latest_in_thread env email = true) ∧
    (∀ tid d, email.threadId = some tid → email.internalDate = some d →
      env.threadMessages tid ≠ [] →
      (is_latest_in_thread env email = true ↔
        maxInternalDate (env.threadMessages tid) ≤ d)) := by
  refine ⟨?_, ?_, ?_⟩
  · intro h
    simp [is_latest_in_thread, h]
  · intro tid h hmsgs
    cases hd : email.internalDate with
    | none => simp [is_latest_in_thread, h, hd]
    | some d => simp [is_latest_in_thread, h, hd, hmsgs]
  · intro tid d h hd hne
    have hemp : (env.threadMessages tid).isEmpty = false := by
      cases hm : env.threadMessages tid with
      | nil => exact absurd hm hne
      | cons a l => rfl
    simp [is_latest_in_thread, h, hd, hemp]

/-- Fixtures for the C4 witness: thread `"T"` already holds messages at
timestamps 100 and 200 (Scenario D: the newer event was delivered first). -/
def env4 : Env :=
  { threadMessages := fun t => if t = "T" then [⟨some 100⟩, ⟨some 200⟩] else []
  , extract_email_address := fun _ => none
  , classifyRaw := fun _ => none
  , get_context := fun _ => ""
  , extract_milestone1_data := fun _ _ => []
  , send := fun _ _ _ => none
  , isRelevant := fun _ => false }

/-- The older of the two out-of-order events of Scenario D. -/
def emailOld4 : Email :=
  { id := "m-old", fromField := "Bob <bob@corp.com>", subject := "Re: move"
  , body := "older", snippet := "", threadId := some "T", internalDate := some 100 }

/-- The newer event of Scenario D. -/
def emailNew4 : Email :=
  { id := "m-new", fromField := "Bob <bob@corp.com>", subject := "Re: move"
  , body := "newer", snippet := "", threadId := some "T", internalDate := some 200 }

/-- C4 witness: Scenario D — the older event is rejected as stale, the newest
(tie with the maximum) is admitted. -/
theorem C4_witness :
    is_latest_in_thread env4 emailOld4 = false ∧
    is_latest_in_thread env4 emailNew4 = true := by
  constructor
  · have h := (C4_theorem env4 emailOld4).2.2 "T" 100 rfl rfl (by decide)
    have h2 : ¬ maxInternalDate (env4.threadMessages "T") ≤ 100 := by decide
    cases hb : is_latest_in_thread env4 emailOld4 with
    | false => rfl
    | true => exact absurd (h.mp hb) h2
  · exact ((C4_theorem env4 emailNew4).2.2 "T" 200 rfl rfl (by decide)).mpr (by decide)

/-! ## C5 -/

/-- Per-case consequence of one mutating store operation: the milestone
counter does not decrease and completed milestones stay completed. -/
def caseLe (c c' : Case) : Prop :=
  c.current_milestone ≤ c'.current_milestone ∧
  ∀ m ms, alookup m c.milestones = some ms → ms.status = "completed" →
    ∃ ms', alookup m c'.milestones = some ms' ∧ ms'.status = "completed"

theorem caseLe_refl (c : Case) : caseLe c c :=
  ⟨le_refl _, fun _ ms h hst => ⟨ms, h, hst⟩⟩

theorem caseLe_trans {a b c : Case} (h1 : caseLe a b) (h2 : caseLe b c) :
    caseLe a c := by
  refine ⟨le_trans h1.1 h2.1, fun m ms h hst => ?_⟩
  obtain ⟨ms1, hm1, hs1⟩ := h1.2 m ms h hst
  exact h2.2 m ms1 hm1 hs1

/-- Every case present before a store transformation is present after, with
`caseLe` relating the two. -/
def storeLe (s s' : Store) : Prop :=
  ∀ e c, alookup e s = some c → ∃ c', alookup e s' = some c' ∧ caseLe c c'

theorem storeLe_refl (s : Store) : storeLe s s :=
  fun _ c h => ⟨c, h, caseLe_refl c⟩

theorem storeLe_trans {s1 s2 s3 : Store} (h1 : storeLe s1 s2)
    (h2 : storeLe s2 s3) : storeLe s1 s3 := by
  intro e c h
  obtain ⟨c1, hm1, hle1⟩ := h1 e c h
  obtain ⟨c2, hm2, hle2⟩ := h2 e c1 hm1
  exact ⟨c2, hm2, caseLe_trans hle1 hle2⟩

theorem storeLe_amodify (s : Store) (e : String) (f : Case → Case)
    (hf : ∀ c, caseLe c (f c)) : storeLe s (amodify e f s) := by
  intro e' c h
  by_cases he : e' = e
  · subst he
    rw [alookup_amodify_self, h]
    exact ⟨f c, rfl, hf c⟩
  · rw [alookup_amodify_ne he]
    exact ⟨c, h, caseLe_refl c⟩

theorem alookup_ensureMilestone {m₀ : Nat} {l : List (Nat × MilestoneState)}
    {ms : MilestoneState} (m : Nat) (h : alookup m₀ l = some ms) :
    alookup m₀ (ensureMilestone m l) = some ms := by
  unfold ensureMilestone
  by_cases hm : (alookup m l).isSome
  · simp [hm, h]
  · simp only [hm, if_false]
    exact alookup_append_left h _

theorem completed_amodify (l : List (Nat × MilestoneState)) (m : Nat)
    (g : MilestoneState → MilestoneState)
    (hg : ∀ ms, ms.status = "completed" → (g ms).status = "completed") :
    ∀ m₀ ms, alookup m₀ l = some ms → ms.status = "completed" →
      ∃ ms', alookup m₀ (amodify m g l) = some ms' ∧ ms'.status = "completed" := by
  intro m₀ ms h hst
  by_cases hm : m₀ = m
  · subst hm
    rw [alookup_amodify_self, h]
    exact ⟨g ms, rfl, hg ms hst⟩
  · rw [alookup_amodify_ne hm]
    exact ⟨ms, h, hst⟩

theorem storeLe_applyOp (s : Store) (op : StoreOp) : storeLe s (applyOp s op) := by
  cases op with
  | create e =>
    cases h : alookup e s with
    | some c =>
      have heq : applyOp s (.create e) = s := by
        simp [applyOp, create_case, h]
      rw [heq]
      exact storeLe_refl s
    | none =>
      have heq : applyOp s (.create e) = s ++ [(e, newCase e)] := by
        simp [applyOp, create_case, h]
      rw [heq]
      intro e' c' h'
      exact ⟨c', alookup_append_left h' _, caseLe_refl c'⟩
  | updateData e m d =>
    cases h : alookup e s with
    | none =>
      have heq : applyOp s (.updateData e m d) = s := by
        simp [applyOp, update_milestone_data, h]
      rw [heq]
      exact storeLe_refl s
    | some c0 =>
      have heq : applyOp s (.updateData e m d) =
          amodify e (fun c =>
            let merged :=
              amodify m (fun ms => { ms with data := dictUpdate ms.data d })
                (ensureMilestone m c.milestones)
            { c with milestones := merged }) s := by
        simp [applyOp, update_milestone_data, h]
      rw [heq]
      apply storeLe_amodify
      intro c
      refine ⟨le_refl _, fun m₀ ms hms hst => ?_⟩
      show ∃ ms', alookup m₀ (amodify m
        (fun ms => { ms with data := dictUpdate ms.data d })
        (ensureMilestone m c.milestones)) = some ms' ∧ ms'.status = "completed"
      exact completed_amodify _ m
        (fun ms => { ms with data := dictUpdate ms.data d }) (fun _ h => h) m₀ ms
        (alookup_ensureMilestone m hms) hst
  | advance e =>
    cases h : alookup e s with
    | none =>
      have heq : applyOp s (.advance e) = s := by
        simp [applyOp, advance_milestone, h]
      rw [heq]
      exact storeLe_refl s
    | some c0 =>
      have heq : applyOp s (.advance e) =
          amodify e (fun c =>
            let marked :=
              amodify c.current_milestone (fun ms => { ms with status := "completed" })
                c.milestones
            { c with milestones := marked,
                     current_milestone := c.current_milestone + 1 }) s := by
        simp [applyOp, advance_milestone, h]
      rw [heq]
      apply storeLe_amodify
      intro c
      refine ⟨Nat.le_succ _, fun m₀ ms hms hst => ?_⟩
      show ∃ ms', alookup m₀ (amodify c.current_milestone
        (fun ms => { ms with status := "completed" })
        c.milestones) = some ms' ∧ ms'.status = "completed"
      exact completed_amodify _ c.current_milestone _ (fun _ _ => rfl) m₀ ms hms hst
  | updatePending e m a =>
    cases h : alookup e s with
    | none =>
      have heq : applyOp s (.updatePending e m a) = s := by
        simp [applyOp, update_pending_actions, h]
      rw [heq]
      exact storeLe_refl s
    | some c0 =>
      have heq : applyOp s (.updatePending e m a) =
          amodify e (fun c =>
            let withActs :=
              amodify m (fun ms => { ms with pending_actions := a })
                (ensureMilestone m c.milestones)
            { c with milestones := withActs }) s := by
        simp [applyOp, update_pending_actions, h]
      rw [heq]
      apply storeLe_amodify
      intro c
      refine ⟨le_refl _, fun m₀ ms hms hst => ?_⟩
      show ∃ ms', alookup m₀ (amodify m
        (fun ms => { ms with pending_actions := a })
        (ensureMilestone m c.milestones)) = some ms' ∧ ms'.status = "completed"
      exact completed_amodify _ m
        (fun ms => { ms with pending_actions := a }) (fun _ h => h) m₀ ms
        (alookup_ensureMilestone m hms) hst

theorem storeLe_applyOps (s : Store) (ops : List StoreOp) :
    storeLe s (applyOps s ops) := by
  induction ops generalizing s with
  | nil => exact storeLe_refl s
  | cons op ops ih => exact storeLe_trans (storeLe_applyOp s op) (ih (applyOp s op))

/-- C5: under any sequence of `create_case`, `update_milestone_data`,
`advance_milestone` and `update_pending_actions` calls, every case's
`current_milestone` never decreases, and a milestone whose status is
`"completed"` is never set back to `"in_progress"` (it stays `"completed"`). -/
theorem C5_theorem (ops : List StoreOp) (s : Store) (e : String) (c : Case)
    (h : alookup e s = some c) :
    ∃ c', alookup e (applyOps s ops) = some c' ∧
      c.current_milestone ≤ c'.current_milestone ∧
      ∀ m ms, alookup m c.milestones = some ms → ms.status = "completed" →
        ∃ ms', alookup m c'.milestones = some ms' ∧ ms'.status = "completed" := by
  obtain ⟨c', hm, hle⟩ := storeLe_applyOps s ops e c h
  unfold caseLe at hle
  exact ⟨c', hm, hle.1, hle.2⟩

/-- Operation sequence for the C5 witness: data update, advance, a pending
update on milestone 2, and a replayed `create_case`. -/
def opsC5 : List StoreOp :=
  [ .updateData "a" 1 [("pickup_address", some (.s "X"))]
  , .advance "a"
  , .updatePending "a" 2 ["quote"]
  , .create "a" ]

/-- Initial store for the C5 witness. -/
def storeC5 : Store := [("a", newCase "a")]

/-- C5 witness: the invariant instantiated on a concrete operation sequence. -/
theorem C5_witness :
    ∃ c', alookup "a" (applyOps storeC5 opsC5) = some c' ∧
      (newCase "a").current_milestone ≤ c'.current_milestone ∧
      ∀ m ms, alookup m (newCase "a").milestones = some ms →
        ms.status = "completed" →
        ∃ ms', alookup m c'.milestones = some ms' ∧ ms'.status = "completed" :=
  C5_theorem opsC5 storeC5 "a" (newCase "a") rfl

/-! ## C6 -/

/-- C6: executing `SendCompletionConfirmation` advances the milestone only
when the send succeeded *and* the store-level completeness re-check
(`is_milestone_complete`, evaluated after the send) still holds — any store
change is exactly a successful `advance_milestone` — and a transport send
failure leaves the store untouched and reports `False` upward. -/
theorem C6_theorem (env : Env) (c : Case) (s : Store) (recipient : String)
    (m : Nat) :
    (env.send c.employee_email get_milestone1_completion_confirmation.1
        get_milestone1_completion_confirmation.2 = none →
      execute_action env (.send_completion_confirmation recipient m) c s =
        (false, s, [])) ∧
    (∀ b s' sent,
      execute_action env (.send_completion_confirmation recipient m) c s =
        (b, s', sent) →
      s' ≠ s →
      b = true ∧
      (send_next_email env s c.employee_email
        get_milestone1_completion_confirmation.1
        get_milestone1_completion_confirmation.2 "employee").1 = true ∧
      is_milestone_complete s c.employee_email 1 = true ∧
      advance_milestone s c.employee_email = .ok s') := by
  constructor
  · intro hsend
    simp [execute_action, send_next_email, hsend]
  · intro b s' sent heq hne
    have heq2 : (if (send_next_email env s c.employee_email
        get_milestone1_completion_confirmation.1
        get_milestone1_completion_confirmation.2 "employee").1 then
          if is_milestone_complete s c.employee_email 1 then
            match advance_milestone s c.employee_email with
            | .ok s2 => (true, s2, (send_next_email env s c.employee_email
                get_milestone1_completion_confirmation.1
                get_milestone1_completion_confirmation.2 "employee").2)
            | .error _ => (false, s, (send_next_email env s c.employee_email
                get_milestone1_completion_confirmation.1
                get_milestone1_completion_confirmation.2 "employee").2)
          else (true, s, (send_next_email env s c.employee_email
              get_milestone1_completion_confirmation.1
              get_milestone1_completion_confirmation.2 "employee").2)
        else (false, s, (send_next_email env s c.employee_email
            get_milestone1_completion_confirmation.1
            get_milestone1_completion_confirmation.2 "employee").2)) =
        (b, s', sent) := heq
    split at heq2
    next hsendT =>
      split at heq2
      next hcomp =>
        split at heq2
        next s2 hadv =>
          simp only [Prod.mk.injEq] at heq2
          obtain ⟨hb, hs, _⟩ := heq2
          exact ⟨hb.symm, hsendT, hcomp, hs ▸ hadv⟩
        next e hadv =>
          simp only [Prod.mk.injEq] at heq2
          exact absurd heq2.2.1.symm hne
      next hcompF =>
        simp only [Prod.mk.injEq] at heq2
        exact absurd heq2.2.1.symm hne
    next hsendF =>
      simp only [Prod.mk.injEq] at heq2
      exact absurd heq2.2.1.symm hne

/-- C6 witness: with a failing transport (`env4.send` always `none`), the
completion action leaves the store unchanged and reports failure. -/
theorem C6_witness :
    execute_action env4 (.send_completion_confirmation "emp@example.com" 1)
      caseFiveSet [("emp@example.com", caseFiveSet)] =
      (false, [("emp@example.com", caseFiveSet)], []) :=
  (C6_theorem env4 caseFiveSet [("emp@example.com", caseFiveSet)]
    "emp@example.com" 1).1 rfl

/-! ## C7 -/

theorem afind_mem {κ α : Type} [DecidableEq κ] {k : κ} {l : List (κ × α)}
    {p : κ × α} (h : afind k l = some p) : p ∈ l := by
  induction l with
  | nil => simp [afind] at h
  | cons q l ih =>
    by_cases hq : q.1 = k
    · simp [afind, hq] at h
      simp [← h]
    · simp [afind, hq] at h
      exact List.mem_cons_of_mem q (ih h)

/-- Every value bound in the filtered update dict is non-`None`. -/
theorem alookup_filter_isSome {extracted : DataMap} {k : String} {w : Option Val}
    (h : alookup k (extracted.filter fun p => p.2.isSome) = some w) :
    w.isSome = true := by
  rw [alookup_def] at h
  cases hf : afind k (extracted.filter fun p => p.2.isSome) with
  | none => rw [hf] at h; simp at h
  | some p =>
    rw [hf] at h
    simp at h
    have hmem := afind_mem hf
    rw [List.mem_filter] at hmem
    rw [← h]
    exact hmem.2

theorem alookup_of_dget {d : DataMap} {k : String} {v : Val}
    (h : dget d k = some v) : alookup k d = some (some v) := by
  unfold dget at h
  cases ha : alookup k d with
  | none => rw [ha] at h; simp at h
  | some w =>
    rw [ha] at h
    cases w with
    | none => simp [Option.join] at h
    | some x =>
      simp [Option.join] at h
      rw [h]

/-- A successful `update_milestone_data` on milestone 1 rewrites the case's
milestone-1 data to the `dict.update` of the old data with the argument. -/
theorem milestoneData_after_update (s : Store) (e : String) (d : DataMap)
    (c : Case) (s' : Store) (hc : alookup e s = some c)
    (hm : update_milestone_data s e 1 d = .ok s') :
    ∃ c', alookup e s' = some c' ∧
      milestoneData c' 1 = dictUpdate (milestoneData c 1) d := by
  unfold update_milestone_data at hm
  rw [hc] at hm
  injection hm with hs'
  subst hs'
  set ml := amodify 1 (fun ms => { ms with data := dictUpdate ms.data d })
    (ensureMilestone 1 c.milestones) with hml
  refine ⟨{ c with milestones := ml }, ?_, ?_⟩
  · rw [alookup_amodify_self, hc]
    rfl
  · unfold milestoneData
    simp only []
    rw [alookup_amodify_self]
    cases hl : alookup 1 c.milestones with
    | some ms =>
      have hens : ensureMilestone 1 c.milestones = c.milestones := by
        unfold ensureMilestone
        rw [hl]
        rfl
      rw [hens, hl]
      rfl
    | none =>
      have hens : ensureMilestone 1 c.milestones =
          c.milestones ++ [(1, blankMilestone)] := by
        unfold ensureMilestone
        rw [hl]
        rfl
      rw [hens]
      have hap : alookup 1 (c.milestones ++ [(1, blankMilestone)]) =
          some blankMilestone := by
        rw [alookup_append, hl]
        rfl
      rw [hap]
      rfl

/-- C7: merging extracted field data after an `"answer"` intent never resets a
set field to unknown — only non-unknown extracted values are merged (every
change comes from a non-`None` value of the filtered update dict) and every
field key the merge does not carry keeps its exact prior binding. -/
theorem C7_theorem (s : Store) (e : String) (extracted : DataMap) (c : Case)
    (s' : Store) (hc : alookup e s = some c)
    (hm : merge_extracted_updates s e extracted = .ok s') :
    ∃ c', alookup e s' = some c' ∧
      (∀ k v, dget (milestoneData c 1) k = some v →
        (dget (milestoneData c' 1) k).isSome = true) ∧
      (∀ k, alookup k (extracted.filter fun p => p.2.isSome) = none →
        alookup k (milestoneData c' 1) = alookup k (milestoneData c 1)) ∧
      (∀ k, dget (milestoneData c' 1) k ≠ dget (milestoneData c 1) k →
        ∃ w, dget (milestoneData c' 1) k = some w ∧
          alookup k (extracted.filter fun p => p.2.isSome) = some (some w)) := by
  unfold merge_extracted_updates at hm
  by_cases hemp : (extracted.filter fun p => p.2.isSome).isEmpty
  · rw [if_pos hemp] at hm
    injection hm with hs
    subst hs
    refine ⟨c, hc, ?_, ?_, ?_⟩
    · intro k v hv
      rw [hv]
      rfl
    · intro k _
      rfl
    · intro k hne
      exact absurd rfl hne
  · rw [if_neg hemp] at hm
    obtain ⟨c', hc', hdata⟩ := milestoneData_after_update s e _ c s' hc hm
    refine ⟨c', hc', ?_, ?_, ?_⟩
    · intro k v hv
      have hold := alookup_of_dget hv
      unfold dget
      rw [hdata, alookup_dictUpdate_of_mem_d _ hold]
      cases hu : alookup k (extracted.filter fun p => p.2.isSome) with
      | none => rfl
      | some w =>
        have hw := alookup_filter_isSome hu
        cases w with
        | none => simp at hw
        | some x => rfl
    · intro k hk
      rw [hdata]
      exact alookup_dictUpdate_of_not_mem_u k hk
    · intro k hne
      unfold dget at hne ⊢
      rw [hdata] at hne ⊢
      cases ha : alookup k (milestoneData c 1) with
      | some v0 =>
        have hupd := alookup_dictUpdate_of_mem_d
          (extracted.filter fun p => p.2.isSome) ha
        cases hu : alookup k (extracted.filter fun p => p.2.isSome) with
        | none =>
          rw [hu] at hupd
          exact absurd (by rw [hupd, ha]) hne
        | some w =>
          rw [hu] at hupd
          have hw := alookup_filter_isSome hu
          cases w with
          | none => simp at hw
          | some x =>
            refine ⟨x, ?_, rfl⟩
            rw [hupd]
            rfl
      | none =>
        have hupd := alookup_dictUpdate_of_not_mem_d
          (extracted.filter fun p => p.2.isSome) ha
        cases hu : alookup k (extracted.filter fun p => p.2.isSome) with
        | none =>
          rw [hu] at hupd
          exact absurd (by rw [hupd, ha]) hne
        | some w =>
          rw [hu] at hupd
          have hw := alookup_filter_isSome hu
          cases w with
          | none => simp at hw
          | some x =>
            refine ⟨x, ?_, rfl⟩
            rw [hupd]
            rfl

/-- Extraction result for the C7 witness: `pickup_address` came back unknown
(it must not clobber anything), `pickup_date` and `needs_box` came back set. -/
def extractedC7 : DataMap :=
  [ ("pickup_address", none)
  , ("pickup_date", some (.s "2026-01-05"))
  , ("needs_box", some (.b true)) ]

/-- Store before the C7 witness merge. -/
def storeC7 : Store := [("emp@example.com", caseOnlyAddresses)]

/-- Store after the C7 witness merge. -/
def storeC7after : Store :=
  match merge_extracted_updates storeC7 "emp@example.com" extractedC7 with
  | .ok s1 => s1
  | .error _ => []

/-- C7 witness: the no-regression theorem instantiated on the concrete merge. -/
theorem C7_witness :
    ∃ c', alookup "emp@example.com" storeC7after = some c' ∧
      (∀ k v, dget (milestoneData caseOnlyAddresses 1) k = some v →
        (dget (milestoneData c' 1) k).isSome = true) ∧
      (∀ k, alookup k (extractedC7.filter fun p => p.2.isSome) = none →
        alookup k (milestoneData c' 1) =
          alookup k (milestoneData caseOnlyAddresses 1)) ∧
      (∀ k, dget (milestoneData c' 1) k ≠
          dget (milestoneData caseOnlyAddresses 1) k →
        ∃ w, dget (milestoneData c' 1) k = some w ∧
          alookup k (extractedC7.filter fun p => p.2.isSome) = some (some w)) :=
  C7_theorem storeC7 "emp@example.com" extractedC7 caseOnlyAddresses
    storeC7after rfl rfl

/-! ## C3 -/

/-- Environment for the C3 run: the sender resolves, thread lookups are
empty, the other collaborators are irrelevant before the thread-link step. -/
def env3 : Env :=
  { threadMessages := fun _ => []
  , extract_email_address := fun _ => some "bob@corp.com"
  , classifyRaw := fun _ => some "answer"
  , get_context := fun _ => ""
  , extract_milestone1_data := fun _ _ => []
  , send := fun _ _ _ => some { threadId := none }
  , isRelevant := fun _ => true }

/-- An admitted inbound event carrying a thread identifier, from a sender with
no case yet (so the loaded case records no employee thread id). -/
def email3 : Email :=
  { id := "m3", fromField := "Bob <bob@corp.com>", subject := "move"
  , body := "hello", snippet := "", threadId := some "T", internalDate := none }

/-- C3 (code bug): the event carries thread id `"T"` and the case has none
recorded, so the spec says the id is recorded and processing continues to
intent classification — but `StateManager` defines no `update_thread_id`
method, so the orchestrator's thread-link call raises `AttributeError`: the
pass aborts with `False`, the fresh case still has no thread id recorded, and
nothing (classification, decision, send) runs after the link step. -/
theorem C3_code_bug :
    process_core env3 email3 [] =
      (.error .attributeError, [("bob@corp.com", newCase "bob@corp.com")], []) ∧
    process_incoming_email env3 email3 [] =
      (false, [("bob@corp.com", newCase "bob@corp.com")], []) ∧
    (newCase "bob@corp.com").employee_thread_id = none := by
  refine ⟨rfl, rfl, rfl⟩

/-! ## C8 -/

/-- Case fixture for C8: milestone-1 case with a recorded employee thread. -/
def case8 : Case :=
  { employee_email := "bob@corp.com"
  , current_milestone := 1
  , milestones := [(1, initialMilestone1)]
  , employee_thread_id := some "T8"
  , vendor_thread_id := none }

/-- Store fixture for C8. -/
def store8 : Store := [("bob@corp.com", case8)]

/-- Environment for C8: replies thread cleanly, the classifier says
`question`, sends succeed in the existing thread, everything is relevant. -/
def env8 : Env :=
  { threadMessages := fun _ => [⟨some 5⟩]
  , extract_email_address := fun _ => some "bob@corp.com"
  , classifyRaw := fun _ => some "question"
  , get_context := fun _ => ""
  , extract_milestone1_data := fun _ _ => []
  , send := fun _ _ _ => some { threadId := some "T8" }
  , isRelevant := fun _ => true }

/-- The inbound event delivered twice in C8. -/
def email8 : Email :=
  { id := "m8", fromField := "Bob <bob@corp.com>", subject := "a question"
  , body := "when do you need this?", snippet := ""
  , threadId := some "T8", internalDate := some 5 }

/-- C8 (counterexample): the same event id processed once through the poll
loop (successfully, id recorded) and then replayed through the push endpoint
is *not* a no-op — the endpoint consults no processed-id set, re-runs the
pipeline, and produces a second outbound send of the same email. -/
theorem C8_counterexample :
    poll_step env8 (some email8) [] store8 =
      (["m8"], store8,
        [("bob@corp.com", "Moving Service Request - Information Needed")]) ∧
    process_email_endpoint_single env8 email8 store8 =
      (.success, store8,
        [("bob@corp.com", "Moving Service Request - Information Needed")]) := by
  refine ⟨rfl, rfl⟩

/-- C8 (amended): duplicate suppression exists only on the polling ingress —
an event id already recorded makes the poll iteration a strict no-op (no
store change, no send) — while the push endpoint performs no duplicate check:
for any relevant email it simply re-runs the full pipeline. -/
theorem C8_amended (env : Env) (email : Email) (processed_ids : List String)
    (s : Store) :
    (processed_ids.contains email.id = true →
      poll_step env (some email) processed_ids s = (processed_ids, s, [])) ∧
    (env.isRelevant (email.subject ++ "\n\n" ++ email.body) = true →
      process_email_endpoint_single env email s =
        ((if (process_incoming_email env email s).1 then EndpointStatus.success
          else EndpointStatus.hadIssues),
         (process_incoming_email env email s).2.1,
         (process_incoming_email env email s).2.2)) := by
  constructor
  · intro h
    have hmem : email.id ∈ processed_ids := by simpa using h
    simp [poll_step, hmem]
  · intro h
    simp [process_email_endpoint_single, h]

/-- C8 witness: with the id already recorded, the poll iteration is a no-op. -/
theorem C8_witness :
    poll_step env8 (some email8) ["m8"] store8 = (["m8"], store8, []) :=
  (C8_amended env8 email8 ["m8"] store8).1 rfl

/-! ## C9 -/

/-- Environment for C9: the intent classifier raises (`classifyRaw` is
`none`), the transport send succeeds starting a fresh thread with no
`threadId` in the returned message. -/
def env9 : Env :=
  { threadMessages := fun _ => []
  , extract_email_address := fun _ => some "bob@corp.com"
  , classifyRaw := fun _ => none
  , get_context := fun _ => ""
  , extract_milestone1_data := fun _ _ => []
  , send := fun _ _ _ => some { threadId := none }
  , isRelevant := fun _ => true }

/-- A thread-free inbound event for C9. -/
def email9 : Email :=
  { id := "m9", fromField := "Bob <bob@corp.com>", subject := "hello"
  , body := "hello", snippet := "", threadId := none, internalDate := none }

/-- C9 (counterexample): with the classifier failing, the pass does *not*
stop at a no-op — it still computes the next action from state and performs
an outbound send (here the milestone-1 initial request to a fresh case). -/
theorem C9_counterexample :
    env9.classifyRaw email9.body = none ∧
    extract_intent env9 email9.body = "unknown" ∧
    process_incoming_email env9 email9 [] =
      (true, [("bob@corp.com", newCase "bob@corp.com")],
        [("bob@corp.com", "Moving Service Request - Information Needed")]) := by
  refine ⟨rfl, rfl, rfl⟩

/-- C9 (amended): a classifier failure yields intent `"unknown"`, which
`handle_milestone1` treats exactly like `"unrelated"`: the extraction/merge
step is skipped, but the decision engine still runs and its action is still
executed (possibly an outbound send); the event is marked processed only when
that pass reports success. -/
theorem C9_amended (env : Env) (parsed : ParsedEmail) (c : Case) (s : Store)
    (h : env.classifyRaw parsed.body = none) :
    extract_intent env parsed.body = "unknown" ∧
    handle_milestone1 env parsed c "unknown" s =
      handle_milestone1 env parsed c "unrelated" s := by
  constructor
  · simp [extract_intent, h]
  · rfl

/-- C9 witness: the amended theorem at the concrete failing classifier. -/
theorem C9_witness :
    extract_intent env9 (parse_email email9).body = "unknown" ∧
    handle_milestone1 env9 (parse_email email9) (newCase "bob@corp.com") "unknown" [] =
      handle_milestone1 env9 (parse_email email9) (newCase "bob@corp.com") "unrelated" [] :=
  C9_amended env9 (parse_email email9) (newCase "bob@corp.com") [] rfl

end Gullie
